import Mathlib

/-!
Shallow embedding of the resource-view component of the yakiapp repository
(src/app/views/apps/components/resourceview/resourceview.component.ts).

The component receives command-result events whose payload carries a
JSON-encoded string.  We embed the result of JSON.parse as an optional
structured value: parse failure (the catch branch) is represented by none.
The nested resource and metrics fields are themselves JSON-encoded strings in
the source; we embed them post-parse as optional structured values, where
absence of the field is none.  JavaScript field dereference on undefined
(a TypeError) is embedded as an Except.error result of the handler.
-/

namespace Yaki

/-- A usage value merged from metrics (opaque structured data in the source). -/
abbrev Usage := String

/-- The resources object of a container spec: the usage slot written by the
merge, plus the remaining (opaque, untouched) resource fields. -/
structure Resources where
  usage : Option Usage
  rest : String
deriving DecidableEq

/-- A container in item.spec.containers: the resources object and the
remaining (opaque, untouched) container fields. -/
structure Container where
  rest : String
  resources : Resources
deriving DecidableEq

/-- item.metadata with the name used as the metrics join key. -/
structure Metadata where
  name : String
deriving DecidableEq

/-- item.spec: the container list and the remaining (opaque) spec fields. -/
structure Spec where
  containers : List Container
  rest : String
deriving DecidableEq

/-- The flattened dotted-key view produced by the flat library: determined by
the item content (metadata and spec). -/
abbrev Flat := Metadata × Spec

/-- A resource item of the parsed items list.  The flat field is absent in the
payload as delivered and is attached by handleEvent. -/
structure Item where
  metadata : Metadata
  spec : Spec
  flat : Option Flat
deriving DecidableEq

/-- flatten(item) from the flat library: the dotted-key view of the item
content. -/
def flatten (i : Item) : Flat := (i.metadata, i.spec)

/-- A container entry of a metrics item: its usage and remaining fields. -/
structure MetricContainer where
  usage : Usage
  rest : String
deriving DecidableEq

/-- A metrics item: metadata.name keys the metrics map. -/
structure MetricItem where
  metadata : Metadata
  containers : List MetricContainer
deriving DecidableEq

/-- The parsed value of the JSON-encoded results.resource string. -/
structure ResourceData where
  items : List Item
deriving DecidableEq

/-- The parsed value of the JSON-encoded results.metrics string. -/
structure MetricsData where
  items : List MetricItem
deriving DecidableEq

/-- The parsed payload data object: items directly, or the resource and
metrics pair of JSON-encoded strings (embedded post-parse); each field may be
absent. -/
structure Results where
  items : Option (List Item)
  resource : Option ResourceData
  metrics : Option MetricsData
deriving DecidableEq

/-- The event payload: the originating command name and the JSON-encoded data
string, embedded as its parse result (none when JSON.parse throws, which the
source catches and logs). -/
structure Payload where
  command : String
  data : Option Results
deriving DecidableEq

/-- An event delivered to handleEvent: channel name and payload. -/
structure Event where
  name : String
  payload : Payload
deriving DecidableEq

/-- One command registration of a resource view (cmd.command and
cmd.arguments in the source). -/
structure Command where
  command : String
  arguments : List (String × String)
deriving DecidableEq

/-- The @Input resource of the component: column definitions (opaque),
the optional command list (the source accesses it with optional chaining),
and the resource name. -/
structure Resource where
  columns : List String
  command : Option (List Command)
  name : String
deriving DecidableEq

/-- The mutable component fields the embedded operations read or write. -/
structure CompState where
  isLoading : Bool
  isSideBarHidden : Bool
  columnDefs : List String
  resource : Resource
  rowDataObs : List Item
  rowData : List Item
  selectedapp : Option Item
deriving DecidableEq

/-- Modelled from the spec: the canonical result channel name of
TauriAdapter.response_channel (the adapter service is not part of the given
sources); only its identity matters to the component. -/
def app_command_result : String := "app_command_result"

/-- The metrics map built by mmap.set: a JavaScript Map as an insertion
ordered association list. -/
abbrev MMap := List (String × MetricItem)

/-- Map.prototype.set: replace in place when the key exists, else append. -/
def mapSet (m : MMap) (k : String) (v : MetricItem) : MMap :=
  if m.any (fun p => p.1 = k) then
    m.map (fun p => if p.1 = k then (k, v) else p)
  else
    m ++ [(k, v)]

/-- Map.prototype.get: first entry with the key, if any. -/
def mapGet (m : MMap) (k : String) : Option MetricItem :=
  (m.find? (fun p => p.1 = k)).map (fun p => p.2)

/-- metrics.items.forEach((m) => mmap.set(m.metadata.name, m)). -/
def buildMMap (ms : List MetricItem) : MMap :=
  ms.foldl (fun acc m => mapSet acc m.metadata.name m) []

/-- The usage merge on one item (lines 149 to 154 of the component): when the
item has at least one container and the map holds a metric for its name with
at least one container entry, write the first metric container usage into the
first container resources; otherwise leave the item as is. -/
def mergeItem (mmap : MMap) (item : Item) : Item :=
  match item.spec.containers with
  | [] => item
  | c :: cs =>
    match mapGet mmap item.metadata.name with
    | none => item
    | some metric =>
      match metric.containers with
      | [] => item
      | mc :: _ =>
        { item with
          spec :=
            { item.spec with
              containers :=
                { c with resources := { c.resources with usage := some mc.usage } } :: cs } }

/-- The per-item body of results.items.forEach: the usage merge followed by
item.flat = flatten(item) on the (possibly merged) item. -/
def processItem (mmap : MMap) (item : Item) : Item :=
  let merged := mergeItem mmap item
  { merged with flat := some (flatten merged) }

/-- Decidable form of the merge condition that guards the usage write. -/
def mergeCondB (mmap : MMap) (item : Item) : Bool :=
  !item.spec.containers.isEmpty &&
    (match mapGet mmap item.metadata.name with
     | some m => !m.containers.isEmpty
     | none => false)

/-- handleEvent: parse the payload data (the catch branch logs the parse
failure), and on the app_command_result channel normalize the two payload
shapes and update the table state.  The returned list is the console log; a
JavaScript TypeError (dereference of undefined when the parse failed) is an
Except.error. -/
def handleEvent (s : CompState) (ev : Event) : List String × Except String CompState :=
  let results := ev.payload.data
  let logs : List String :=
    match results with
    | none => ["Failed to parse payload"]
    | some _ => []
  if ev.name = app_command_result then
    match results with
    | none =>
      -- results is undefined here; results.items throws before any state write
      (logs, Except.error "TypeError: results is undefined")
    | some r =>
      let rm : Results × MMap :=
        match r.items, r.resource, r.metrics with
        | none, some res, some met => ({ r with items := some res.items }, buildMMap met.items)
        | _, _, _ => (r, [])
      match rm.1.items with
      | some its =>
        let its2 := its.map (processItem rm.2)
        (logs, Except.ok { s with rowDataObs := its2, rowData := its2, isLoading := false })
      | none => (logs, Except.ok s)
  else
    (logs, Except.ok s)

/-- One setTimeout registration made by the command loop: the arguments of
executeCommandInCurrentNs(cmd.command, cmd.arguments, true) and the delay. -/
structure ScheduledCall where
  command : String
  arguments : List (String × String)
  isAsync : Bool
  delay : Nat
deriving DecidableEq

/-- The forEach loop over the command list: each command is scheduled at the
running delay, which grows by 1000 after each registration. -/
def scheduleFrom (d : Nat) : List Command → List ScheduledCall
  | [] => []
  | c :: cs =>
    { command := c.command, arguments := c.arguments, isAsync := true, delay := d }
      :: scheduleFrom (d + 1000) cs

/-- The component initialize method: iterate resource.command (optional
chaining: absent list schedules nothing) starting at delay 0. -/
def initializeCmds (r : Resource) : List ScheduledCall :=
  match r.command with
  | none => []
  | some cmds => scheduleFrom 0 cmds

/-- clearTable: reset the observable row data feeding the grid. -/
def clearTable (s : CompState) : CompState := { s with rowDataObs := [] }

/-- The lifecycle signals carried on the ng-event-bus app_events channel. -/
inductive AppEvent where
  | cluster_changed
  | ns_changed
  | escape_hit
  | other (tag : String)
deriving DecidableEq

/-- The subscription callback registered in ngOnInit: returns the updated
component state and the calls newly scheduled by the handler. -/
def onAppEvent (s : CompState) (e : AppEvent) : CompState × List ScheduledCall :=
  match e with
  | .cluster_changed => (clearTable { s with isLoading := true }, [])
  | .ns_changed => (clearTable { s with isLoading := true }, initializeCmds s.resource)
  | .escape_hit =>
    (if !s.isSideBarHidden then { s with isSideBarHidden := true } else s, [])
  | .other _ => (s, [])

/-- Modelled from the spec: the TauriAdapter listener registry (registerListener
and unRegisterListener are not part of the given sources; section 4.4 of the
spec gives the registry semantics).  Entries pair a channel with a listener
identity. -/
structure BusState where
  listeners : List (String × Nat)
deriving DecidableEq

/-- Modelled from the spec: registerListener appends the listener under the
channel. -/
def registerListener (b : BusState) (chan : String) (lid : Nat) : BusState :=
  { b with listeners := b.listeners ++ [(chan, lid)] }

/-- Modelled from the spec: unRegisterListener removes every registration of
the listener identity. -/
def unRegisterListener (b : BusState) (lid : Nat) : BusState :=
  { b with listeners := b.listeners.filter (fun p => !(p.2 = lid)) }

/-- Modelled from the spec: publication on a channel delivers to exactly the
listeners registered under that channel. -/
def deliverTargets (b : BusState) (chan : String) : List Nat :=
  (b.listeners.filter (fun p => p.1 = chan)).map (fun p => p.2)

/-- Modelled from the spec: the ng-event-bus side, as the set of live
subscription tokens; Subscription.unsubscribe removes a token. -/
structure EventBusState where
  subs : List Nat
deriving DecidableEq

/-- Subscription.unsubscribe on a token. -/
def unsubscribe (eb : EventBusState) (tok : Nat) : EventBusState :=
  { eb with subs := eb.subs.filter (fun t => !(t = tok)) }

/-- ngOnDestroy: unRegisterListener(this) on the adapter, then
this.subscription?.unsubscribe() (optional chaining on the stored
subscription). -/
def ngOnDestroy (b : BusState) (eb : EventBusState) (lid : Nat)
    (subscription : Option Nat) : BusState × EventBusState :=
  (unRegisterListener b lid,
   match subscription with
   | some tok => unsubscribe eb tok
   | none => eb)

/-! Concrete inputs used by closed counterexample and witness theorems. -/

/-- A quiescent component state. -/
def s0 : CompState :=
  { isLoading := true, isSideBarHidden := true, columnDefs := [],
    resource := { columns := [], command := some [], name := "" },
    rowDataObs := [], rowData := [], selectedapp := none }

/-- An item with no containers, so the usage merge cannot apply to it. -/
def c1item : Item :=
  { metadata := { name := "pod-a" },
    spec := { containers := [], rest := "spec-a" }, flat := none }

/-- A resource plus metrics payload delivering only c1item. -/
def c1results : Results :=
  { items := none, resource := some { items := [c1item] },
    metrics := some { items := [] } }

/-- The command-result event carrying c1results. -/
def c1event : Event :=
  { name := app_command_result,
    payload := { command := "get_pods_with_metrics", data := some c1results } }

/-- What handleEvent actually makes of c1item: the flat field is attached. -/
def c1out : Item := { c1item with flat := some (flatten c1item) }

/-- A result-channel event whose data string failed to parse. -/
def c2event : Event :=
  { name := app_command_result, payload := { command := "get_pods", data := none } }

/-- Three registered commands, as in the staggered batch scenario. -/
def c3cmds : List Command :=
  [{ command := "get_pods", arguments := [] },
   { command := "get_metrics", arguments := [] },
   { command := "get_events", arguments := [] }]

/-- A resource registering c3cmds. -/
def c3res : Resource := { columns := [], command := some c3cmds, name := "pods" }

/-- A resource with one initial command. -/
def c4res : Resource :=
  { columns := [], command := some [{ command := "get_pods", arguments := [] }],
    name := "pods" }

/-- A component state whose resource registers one initial command. -/
def c4state : CompState := { s0 with resource := c4res }

/-- An item with one container and no usage yet. -/
def w6item : Item :=
  { metadata := { name := "pod-a" },
    spec := { containers := [{ rest := "c0", resources := { usage := none, rest := "r0" } }],
              rest := "sp" },
    flat := none }

/-- A metrics list with a matching entry for pod-a. -/
def w6met : MetricsData :=
  { items := [{ metadata := { name := "pod-a" },
                containers := [{ usage := "5m", rest := "mc0" }] }] }

/-- A resource list delivering only w6item. -/
def w6res : ResourceData := { items := [w6item] }

/-- The resource plus metrics pair payload. -/
def w6results : Results :=
  { items := none, resource := some w6res, metrics := some w6met }

/-- The command-result event carrying w6results. -/
def w6event : Event :=
  { name := app_command_result,
    payload := { command := "get_pods_with_metrics", data := some w6results } }

/-- An item whose name has no metrics entry. -/
def w8item : Item :=
  { metadata := { name := "pod-b" },
    spec := { containers := [{ rest := "c0", resources := { usage := none, rest := "r0" } }],
              rest := "sp" },
    flat := none }

/-- The resource list delivering only w8item. -/
def w8resd : ResourceData := { items := [w8item] }

/-- A metrics list with no entries at all. -/
def w8metd : MetricsData := { items := [] }

/-- The pair payload with no usable metrics for w8item. -/
def w8results : Results :=
  { items := none, resource := some w8resd, metrics := some w8metd }

/-- The command-result event carrying w8results. -/
def w8event : Event :=
  { name := app_command_result,
    payload := { command := "get_pods_with_metrics", data := some w8results } }

/-- An event on a different channel than the result channel. -/
def w9event : Event :=
  { name := "lifecycle", payload := { command := "", data := none } }

/-! Helper lemmas shared by the claim theorems. -/

/-- When the merge guard fails the item passes through unchanged. -/
theorem mergeItem_eq_self (mmap : MMap) (item : Item)
    (h : mergeCondB mmap item = false) : mergeItem mmap item = item := by
  unfold mergeCondB at h
  unfold mergeItem
  split
  · rfl
  next c cs heq =>
    split
    · rfl
    next m hg =>
      split
      · rfl
      next mc mcs hm =>
        rw [heq] at h
        simp [hg, hm] at h

/-- When the merge guard holds the first container receives the first metric
container usage. -/
theorem mergeItem_eq_merge (mmap : MMap) (item : Item) (c : Container)
    (cs : List Container) (m : MetricItem) (mc : MetricContainer)
    (mcs : List MetricContainer)
    (h1 : item.spec.containers = c :: cs)
    (h2 : mapGet mmap item.metadata.name = some m)
    (h3 : m.containers = mc :: mcs) :
    mergeItem mmap item =
      { item with spec := { item.spec with containers :=
          { c with resources := { c.resources with usage := some mc.usage } } :: cs } } := by
  unfold mergeItem
  simp only [h1, h2, h3]

/-- processItem on an unmergeable item only attaches the flat field. -/
theorem processItem_not_merged (mmap : MMap) (item : Item)
    (h : mergeCondB mmap item = false) :
    processItem mmap item = { item with flat := some (flatten item) } := by
  unfold processItem
  rw [mergeItem_eq_self mmap item h]

/-- Element i of the schedule built from start delay d. -/
theorem scheduleFrom_getElem (cs : List Command) : ∀ d i : Nat,
    (scheduleFrom d cs)[i]? =
      cs[i]?.map (fun c =>
        { command := c.command, arguments := c.arguments, isAsync := true,
          delay := d + 1000 * i }) := by
  induction cs with
  | nil => intro d i; simp [scheduleFrom]
  | cons c cs ih =>
    intro d i
    cases i with
    | zero => simp [scheduleFrom]
    | succ n =>
      simp only [scheduleFrom, List.getElem?_cons_succ, ih (d + 1000) n]
      cases cs[n]? with
      | none => rfl
      | some c2 =>
        simp only [Option.map_some']
        congr 2
        omega

/-- On the result channel with a parsed payload whose items list is present,
handleEvent renders that list directly (the metrics map stays empty). -/
theorem handleEvent_items (s : CompState) (ev : Event) (r : Results)
    (its : List Item)
    (hev : ev.name = app_command_result) (hd : ev.payload.data = some r)
    (hits : r.items = some its) :
    handleEvent s ev =
      ([], Except.ok { s with
                       rowDataObs := its.map (processItem []),
                       rowData := its.map (processItem []),
                       isLoading := false }) := by
  rcases hr : r.resource with _ | res <;> rcases hm : r.metrics with _ | met <;>
    simp [handleEvent, hev, hd, hits, hr, hm]

/-- On the result channel with a parsed payload carrying the resource plus
metrics pair and no direct items, handleEvent renders the resource items
joined through the metrics map. -/
theorem handleEvent_pair (s : CompState) (ev : Event) (r : Results)
    (res : ResourceData) (met : MetricsData)
    (hev : ev.name = app_command_result) (hd : ev.payload.data = some r)
    (hits : r.items = none) (hres : r.resource = some res)
    (hmet : r.metrics = some met) :
    handleEvent s ev =
      ([], Except.ok { s with
        rowDataObs := res.items.map (processItem (buildMMap met.items)),
        rowData := res.items.map (processItem (buildMMap met.items)),
        isLoading := false }) := by
  simp [handleEvent, hev, hd, hits, hres, hmet]

/-- On the result channel with a parsed payload in neither usable shape,
handleEvent changes nothing. -/
theorem handleEvent_noShape (s : CompState) (ev : Event) (r : Results)
    (hev : ev.name = app_command_result) (hd : ev.payload.data = some r)
    (hits : r.items = none)
    (hrm : r.resource = none ∨ r.metrics = none) :
    handleEvent s ev = ([], Except.ok s) := by
  rcases hrm with hr | hm
  · rcases hmm : r.metrics with _ | met <;> simp [handleEvent, hev, hd, hits, hr, hmm]
  · rcases hrr : r.resource with _ | res <;> simp [handleEvent, hev, hd, hits, hm, hrr]

/-! Claim theorems. -/

/-- C1 counterexample: on a resource plus metrics payload, the item c1item has
no containers, so by the claim it should be returned unmodified; handleEvent
still attaches the flat field, so the rendered item differs from the delivered
one. -/
theorem c1_counterexample :
    (handleEvent s0 c1event).2 =
      Except.ok { s0 with
                  rowDataObs := [c1out],
                  rowData := [c1out],
                  isLoading := false } ∧
    c1out ≠ c1item := by
  exact ⟨rfl, by decide⟩

/-- C1 (amended): handleEvent attaches usage to the first container of an item
exactly when the item has at least one container and a metrics entry with the
same metadata.name and at least one container entry exists; otherwise the item
is unchanged apart from the flat field, which is attached to every rendered
item. -/
theorem c1_merge_iff (mmap : MMap) (item : Item) :
    (mergeCondB mmap item = false →
      processItem mmap item = { item with flat := some (flatten item) }) ∧
    (mergeCondB mmap item = true →
      ∃ c cs m mc, item.spec.containers = c :: cs ∧
        mapGet mmap item.metadata.name = some m ∧ m.containers.head? = some mc ∧
        processItem mmap item =
          { item with
            spec := { item.spec with containers :=
              { c with resources := { c.resources with usage := some mc.usage } } :: cs },
            flat := some (item.metadata,
              { item.spec with containers :=
                { c with resources := { c.resources with usage := some mc.usage } } :: cs }) }) := by
  constructor
  · exact processItem_not_merged mmap item
  · intro h
    unfold mergeCondB at h
    rcases hc : item.spec.containers with _ | ⟨c, cs⟩
    · simp [hc] at h
    · rcases hg : mapGet mmap item.metadata.name with _ | m
      · simp [hc, hg] at h
      · rcases hm : m.containers with _ | ⟨mc, mcs⟩
        · simp [hc, hg, hm] at h
        · refine ⟨c, cs, m, mc, rfl, rfl, by simp [hm], ?_⟩
          unfold processItem
          rw [mergeItem_eq_merge mmap item c cs m mc mcs hc hg hm]
          rfl

/-- C1 witness: the amended theorem evaluated at the empty metrics map and the
container-free item c1item. -/
theorem c1_merge_iff_witness :
    mergeCondB [] c1item = false ∧
      processItem [] c1item = { c1item with flat := some (flatten c1item) } :=
  ⟨by decide, (c1_merge_iff [] c1item).1 (by decide)⟩

/-- C2: on the result channel a payload whose data fails to parse is logged,
but the handler then dereferences the undefined parse result and throws,
contrary to the claim that the result is skipped without throwing. -/
theorem c2_parse_throw (s : CompState) :
    handleEvent s c2event =
      (["Failed to parse payload"],
        Except.error "TypeError: results is undefined") := rfl

/-- C3: the i-th registered command of the resource is scheduled through
executeCommandInCurrentNs with delay offset exactly 1000 times i. -/
theorem c3_staggered (r : Resource) (cmds : List Command) (i : Nat)
    (hc : r.command = some cmds) (h : i < cmds.length) :
    (initializeCmds r)[i]? =
      some { command := cmds[i].command, arguments := cmds[i].arguments,
             isAsync := true, delay := 1000 * i } := by
  simp [initializeCmds, hc, scheduleFrom_getElem, List.getElem?_eq_getElem h]

/-- C3 witness: three registered commands get offsets 0, 1000, 2000; evaluated
at index 2. -/
theorem c3_staggered_witness :
    c3res.command = some c3cmds ∧ 2 < c3cmds.length ∧
      (initializeCmds c3res)[2]? =
        some { command := "get_events", arguments := [], isAsync := true,
               delay := 2000 } :=
  ⟨rfl, by decide, c3_staggered c3res c3cmds 2 rfl (by decide)⟩

/-- C4 counterexample: a cluster-changed event on a state with a registered
initial command schedules nothing, although the claim says the initial
commands are re-triggered and the command list is nonempty. -/
theorem c4_counterexample :
    (onAppEvent c4state .cluster_changed).2 = [] ∧
      initializeCmds c4state.resource ≠ [] := ⟨rfl, by decide⟩

/-- C4 (amended): namespace-changed sets isLoading, clears the observable row
data and re-runs the initial commands; cluster-changed sets isLoading and
clears the observable row data but does not re-run the initial commands. -/
theorem c4_context_change (s : CompState) :
    onAppEvent s .cluster_changed =
      ({ s with isLoading := true, rowDataObs := [] }, []) ∧
    onAppEvent s .ns_changed =
      ({ s with isLoading := true, rowDataObs := [] }, initializeCmds s.resource) :=
  ⟨rfl, rfl⟩

/-- C5: the merge touches at most the usage slot of the first container:
metadata, flat, the other spec fields, all containers past the first, and the
other fields of the first container are unchanged; when the first container
usage is written it becomes the usage of the first container of the matching
metrics entry. -/
theorem c5_first_container_only (mmap : MMap) (item : Item) :
    (mergeItem mmap item).metadata = item.metadata ∧
    (mergeItem mmap item).flat = item.flat ∧
    (mergeItem mmap item).spec.rest = item.spec.rest ∧
    (mergeItem mmap item).spec.containers.tail = item.spec.containers.tail ∧
    ((mergeItem mmap item).spec.containers.head?).map Container.rest =
      (item.spec.containers.head?).map Container.rest ∧
    ((mergeItem mmap item).spec.containers.head?).map (fun c => c.resources.rest) =
      (item.spec.containers.head?).map (fun c => c.resources.rest) ∧
    (((mergeItem mmap item).spec.containers.head?).map (fun c => c.resources.usage) =
        (item.spec.containers.head?).map (fun c => c.resources.usage) ∨
      ∃ m mc, mapGet mmap item.metadata.name = some m ∧
        m.containers.head? = some mc ∧
        ((mergeItem mmap item).spec.containers.head?).map (fun c => c.resources.usage) =
          some (some mc.usage)) := by
  rcases hc : item.spec.containers with _ | ⟨c, cs⟩
  · rw [mergeItem_eq_self mmap item (by simp [mergeCondB, hc]), hc]
    exact ⟨rfl, rfl, rfl, rfl, rfl, rfl, Or.inl rfl⟩
  · rcases hg : mapGet mmap item.metadata.name with _ | m
    · rw [mergeItem_eq_self mmap item (by simp [mergeCondB, hg]), hc]
      exact ⟨rfl, rfl, rfl, rfl, rfl, rfl, Or.inl rfl⟩
    · rcases hm : m.containers with _ | ⟨mc, mcs⟩
      · rw [mergeItem_eq_self mmap item (by simp [mergeCondB, hg, hm]), hc]
        exact ⟨rfl, rfl, rfl, rfl, rfl, rfl, Or.inl rfl⟩
      · rw [mergeItem_eq_merge mmap item c cs m mc mcs hc hg hm]
        exact ⟨rfl, rfl, rfl, rfl, rfl, rfl, Or.inr ⟨m, mc, rfl, by simp [hm], rfl⟩⟩

/-- C6: the parsed payload has exactly two usable shapes: items directly, or
the resource plus metrics pair joined through the name-keyed metrics map; a
payload in neither shape produces no table update. -/
theorem c6_payload_shapes (s : CompState) (ev : Event) (r : Results)
    (hev : ev.name = app_command_result) (hd : ev.payload.data = some r) :
    (∀ its, r.items = some its →
      (handleEvent s ev).2 =
        Except.ok { s with
                    rowDataObs := its.map (processItem []),
                    rowData := its.map (processItem []),
                    isLoading := false }) ∧
    (∀ res met, r.items = none → r.resource = some res → r.metrics = some met →
      (handleEvent s ev).2 =
        Except.ok { s with
          rowDataObs := res.items.map (processItem (buildMMap met.items)),
          rowData := res.items.map (processItem (buildMMap met.items)),
          isLoading := false }) ∧
    (r.items = none → r.resource = none ∨ r.metrics = none →
      (handleEvent s ev).2 = Except.ok s) := by
  refine ⟨?_, ?_, ?_⟩
  · intro its hits
    rw [handleEvent_items s ev r its hev hd hits]
  · intro res met hits hres hmet
    rw [handleEvent_pair s ev r res met hev hd hits hres hmet]
  · intro hits hrm
    rw [handleEvent_noShape s ev r hev hd hits hrm]

/-- C6 witness: the pair shape evaluated on w6event, where the single item is
joined with its metrics entry. -/
theorem c6_payload_shapes_witness :
    (handleEvent s0 w6event).2 =
      Except.ok { s0 with
        rowDataObs := w6res.items.map (processItem (buildMMap w6met.items)),
        rowData := w6res.items.map (processItem (buildMMap w6met.items)),
        isLoading := false } :=
  (c6_payload_shapes s0 w6event w6results rfl rfl).2.1 w6res w6met rfl rfl rfl

/-- C7: after ngOnDestroy the listener identity is no longer a delivery target
on any channel of the adapter registry, and the stored event-bus subscription
token is no longer live. -/
theorem c7_teardown (b : BusState) (eb : EventBusState) (lid tok : Nat)
    (chan : String) :
    lid ∉ deliverTargets (ngOnDestroy b eb lid (some tok)).1 chan ∧
    tok ∉ ((ngOnDestroy b eb lid (some tok)).2).subs := by
  constructor
  · intro hmem
    simp [ngOnDestroy, unRegisterListener, deliverTargets, List.mem_map,
      List.mem_filter] at hmem
  · intro hmem
    simp [ngOnDestroy, unsubscribe, List.mem_filter] at hmem

/-- C8: on the pair shape, an item without a usable metrics entry is still
rendered: loading ends and the item appears at its position with only the
flat field attached. -/
theorem c8_raw_rendered (s : CompState) (ev : Event) (r : Results)
    (res : ResourceData) (met : MetricsData) (i : Nat) (item : Item)
    (hev : ev.name = app_command_result) (hd : ev.payload.data = some r)
    (hits : r.items = none) (hres : r.resource = some res)
    (hmet : r.metrics = some met)
    (hitem : res.items[i]? = some item)
    (hcond : mergeCondB (buildMMap met.items) item = false) :
    ∃ s2, (handleEvent s ev).2 = Except.ok s2 ∧ s2.isLoading = false ∧
      s2.rowData[i]? = some { item with flat := some (flatten item) } := by
  refine ⟨_, congrArg Prod.snd (handleEvent_pair s ev r res met hev hd hits hres hmet),
    rfl, ?_⟩
  simp [List.getElem?_map, hitem, processItem_not_merged _ _ hcond]

/-- C8 witness: w8event delivers one item with no metrics entry; it is still
rendered raw at index 0 with loading ended. -/
theorem c8_raw_rendered_witness :
    ∃ s2, (handleEvent s0 w8event).2 = Except.ok s2 ∧ s2.isLoading = false ∧
      s2.rowData[0]? = some { w8item with flat := some (flatten w8item) } :=
  c8_raw_rendered s0 w8event w8results w8resd w8metd 0 w8item rfl rfl rfl rfl rfl
    rfl (by decide)

/-- C9: an event on another channel, or a successfully parsed payload with
neither usable shape, leaves the whole component state unchanged. -/
theorem c9_frame (s : CompState) (ev : Event)
    (h : ev.name ≠ app_command_result ∨
      ∃ r, ev.payload.data = some r ∧ r.items = none ∧
        (r.resource = none ∨ r.metrics = none)) :
    (handleEvent s ev).2 = Except.ok s := by
  rcases h with h | ⟨r, hd, hits, hrm⟩
  · simp [handleEvent, h]
  · by_cases hev : ev.name = app_command_result
    · rw [handleEvent_noShape s ev r hev hd hits hrm]
    · simp [handleEvent, hev]

/-- C9 witness: an event on the lifecycle channel leaves the state unchanged. -/
theorem c9_frame_witness :
    (handleEvent s0 w9event).2 = Except.ok s0 :=
  c9_frame s0 w9event (Or.inl (by decide))

/-- C10: after an escape-key-hit event the side bar is hidden, nothing else
changes and nothing is scheduled; a second escape-key-hit event is a no-op. -/
theorem c10_escape (s : CompState) :
    onAppEvent s .escape_hit = ({ s with isSideBarHidden := true }, []) ∧
    onAppEvent { s with isSideBarHidden := true } .escape_hit =
      ({ s with isSideBarHidden := true }, []) := by
  constructor
  · unfold onAppEvent
    by_cases h : s.isSideBarHidden
    · cases s with
      | mk a b c d e f g => simp_all
    · simp [h]
  · rfl

end Yaki
